import Mathlib

/-
Verification of the vehicle-intelligence ML service.

Shallow embedding of the inspection pipeline's core logic:
  * `src/services/damage_detector.py` — severity tiers, per-pass confidence
    scoring and retention gates, cross-frame deduplication, verdict assembly;
  * `src/services/frame_extractor.py` — the video-open failure path;
  * `src/api/process.py` — frame-extraction error policy, odometer degraded
    fallback, input-file validation ordering;
  * `src/utils/path_validator.py` — path containment checks.

Image decoding and the external model calls (OpenCV, YOLO, OCR) are
collaborators outside the core: their numeric outputs (contour area, aspect,
contrast, edge density, saturation, circularity, shadow contrast, pixel
coordinates) enter the embedding as parameters, and the arithmetic performed
on them by the service is translated literally, over ℚ.
-/

namespace VehicleIntelligence

/-! ### Severity (damage_detector._detect_sync, lines 396–407) -/

inductive Severity where
  | low
  | medium
  | high
deriving DecidableEq, Repr

/-- Order low < medium < high, used to state monotonicity. -/
def Severity.rank : Severity → ℕ
  | .low => 0
  | .medium => 1
  | .high => 2

/-- Severity computation exactly as written in `_detect_sync`:
`total_damage == 0 → low`; `total_damage > 10 or (total_damage > 5 and
avg_confidence > 0.6) → high`; `total_damage > 3 or avg_confidence > 0.5 →
medium`; otherwise `low`. -/
def computeSeverity (totalDamage : ℕ) (avgConfidence : ℚ) : Severity :=
  if totalDamage = 0 then .low
  else if totalDamage > 10 ∨ (totalDamage > 5 ∧ avgConfidence > 6/10) then .high
  else if totalDamage > 3 ∨ avgConfidence > 5/10 then .medium
  else .low

/-- Modelled from the spec: "Severity tiers: `low` if total=0; `high` if
total>10, or total>5 and mean confidence>0.6; `medium` if total>3 or mean
confidence>0.5; otherwise `low`." -/
def severitySpec (total : ℕ) (meanConfidence : ℚ) : Severity :=
  if total = 0 then .low
  else if total > 10 ∨ (total > 5 ∧ meanConfidence > 6/10) then .high
  else if total > 3 ∨ meanConfidence > 5/10 then .medium
  else .low

/-! ### Damage types and per-pass detection gates -/

inductive DamageType where
  | scratch
  | dent
  | rust
deriving DecidableEq, Repr

/-- `MIN_CONFIDENCE_THRESHOLD = 0.3` (damage_detector line 62). -/
def MIN_CONFIDENCE_THRESHOLD : ℚ := 3/10

/-- Scratch confidence (line 141):
`confidence = min(0.95, 0.4 + contrast * 0.4 + edge_density * 0.2)`. -/
def scratchConfidence (contrast edgeDensity : ℚ) : ℚ :=
  min (95/100) (4/10 + contrast * (4/10) + edgeDensity * (2/10))

/-- Scratch pass retention gates (lines 102–145): contour area strictly
between 500 and 20000, aspect at least 1.5, confidence floor 0.3.  Returns
the retained confidence, or `none` when the contour is discarded. -/
def scratchDetect (area aspect contrast edgeDensity : ℚ) : Option ℚ :=
  if 500 < area ∧ area < 20000 then
    if aspect < 3/2 then none
    else
      let confidence := scratchConfidence contrast edgeDensity
      if confidence < MIN_CONFIDENCE_THRESHOLD then none
      else some confidence
  else none

/-- Rust colour confidence (line 229):
`min(0.9, saturation/255 * 0.5 + value/255 * 0.3)`. -/
def rustColorConfidence (saturation value : ℚ) : ℚ :=
  min (9/10) (saturation / 255 * (5/10) + value / 255 * (3/10))

/-- Rust area confidence (line 230): `min(0.9, area / 50000)`. -/
def rustAreaConfidence (area : ℚ) : ℚ :=
  min (9/10) (area / 50000)

/-- Rust confidence (line 231): mean of the colour and area terms. -/
def rustConfidence (saturation value area : ℚ) : ℚ :=
  (rustColorConfidence saturation value + rustAreaConfidence area) / 2

/-- Rust pass retention gates (lines 218–234): contour area strictly above
2000, confidence floor 0.3. -/
def rustDetect (area saturation value : ℚ) : Option ℚ :=
  if 2000 < area then
    let confidence := rustConfidence saturation value area
    if confidence < MIN_CONFIDENCE_THRESHOLD then none
    else some confidence
  else none

/-- Dent confidence (lines 331–334):
`min(0.8, area/50000) * 0.3 + min(0.7, circularity) * 0.3 +
min(0.6, shadow_contrast * 2) * 0.4`.  The shadow-contrast term
`(edge_intensity - center_intensity)/255` can be negative. -/
def dentConfidence (area circularity shadowContrast : ℚ) : ℚ :=
  min (8/10) (area / 50000) * (3/10) + min (7/10) circularity * (3/10)
    + min (6/10) (shadowContrast * 2) * (4/10)

/-- Dent pass retention gates (lines 302–337): contour area strictly between
2000 and 100000, circularity above 0.4, confidence floor 0.3.  Circularity
is the derived quantity `4π·area/perimeter²` computed by the collaborator;
it enters as a parameter. -/
def dentDetect (area circularity shadowContrast : ℚ) : Option ℚ :=
  if 2000 < area ∧ area < 100000 then
    if circularity > 4/10 then
      let confidence := dentConfidence area circularity shadowContrast
      if confidence < MIN_CONFIDENCE_THRESHOLD then none
      else some confidence
    else none
  else none

/-! ### Cross-frame deduplication (lines 147–159, 236–247, 339–350) -/

/-- Pixel radius used by the duplicate check: 50 for scratch, 80 for rust,
60 for dent (lines 154, 242, 345). -/
def dedupRadius : DamageType → ℤ
  | .scratch => 50
  | .rust => 80
  | .dent => 60

/-- A previously accepted detection's centre and frame index, as stored in
`detected_regions[type]`. -/
structure RegionMark where
  x : ℤ
  y : ℤ
  frame : ℤ
deriving DecidableEq, Repr

/-- One entry of the duplicate scan: same location within `radius` pixels on
both axes and within 3 frames (`abs(prev_x - center_x) < radius and
abs(prev_y - center_y) < radius and abs(prev_frame - frame_idx) < 3`). -/
def isNearbyDuplicate (radius : ℤ) (prev cand : RegionMark) : Bool :=
  decide (|prev.x - cand.x| < radius) && decide (|prev.y - cand.y| < radius)
    && decide (|prev.frame - cand.frame| < 3)

/-- The duplicate scan over the per-type list of previously accepted
detections. -/
def isDuplicateDetection (regions : DamageType → List RegionMark)
    (t : DamageType) (cand : RegionMark) : Bool :=
  (regions t).any (fun prev => isNearbyDuplicate (dedupRadius t) prev cand)

/-- Recording an accepted detection appends its centre and frame index to
`detected_regions[type]` only. -/
def recordDetection (regions : DamageType → List RegionMark)
    (t : DamageType) (cand : RegionMark) : DamageType → List RegionMark :=
  fun u => if u = t then regions t ++ [cand] else regions u

/-- The accumulation the engine's loop performs over candidate detections:
duplicates leave the accepted set unchanged, others are recorded. -/
def runDedupFrom (regions : DamageType → List RegionMark) :
    List (DamageType × RegionMark) → (DamageType → List RegionMark)
  | [] => regions
  | (t, c) :: rest =>
      runDedupFrom
        (if isDuplicateDetection regions t c then regions
         else recordDetection regions t c) rest

/-! ### Verdict assembly (lines 392–424) -/

/-- One entry of `damage_locations`. -/
structure DamageLocation where
  type : DamageType
  framePath : String
  snapshot : Option String
  confidence : ℚ
  bbox : ℤ × ℤ × ℤ × ℤ
deriving DecidableEq, Repr

/-- Number of accepted detections of a given type: the counters
`scratches_count` / `dents_count` / `rust_count` are incremented exactly when
a location of that type is appended, so they equal this count over the full
location list. -/
def countType (t : DamageType) (locs : List DamageLocation) : ℕ :=
  (locs.filter (fun loc => decide (loc.type = t))).length

/-- Stable insertion of a location into a confidence-descending list;
together with `sortByConfidenceDesc` this models
`damage_locations.sort(key=confidence, reverse=True)`. -/
def insertByConfidence (a : DamageLocation) :
    List DamageLocation → List DamageLocation
  | [] => [a]
  | b :: rest =>
      if b.confidence < a.confidence then a :: b :: rest
      else b :: insertByConfidence a rest

/-- Sort by confidence, highest first (line 393). -/
def sortByConfidenceDesc : List DamageLocation → List DamageLocation
  | [] => []
  | a :: rest => insertByConfidence a (sortByConfidenceDesc rest)

/-- `avg_confidence = np.mean([loc.confidence for loc in damage_locations])
if damage_locations else 0` (line 397). -/
def averageConfidence (locs : List DamageLocation) : ℚ :=
  if locs = [] then 0
  else (locs.map (fun loc => loc.confidence)).sum / locs.length

/-- The dictionary returned by `_detect_sync` (lines 409–424). -/
structure DamageVerdict where
  scratchesCount : ℕ
  scratchesDetected : Bool
  dentsCount : ℕ
  dentsDetected : Bool
  rustCount : ℕ
  rustDetected : Bool
  severity : Severity
  locations : List DamageLocation
deriving DecidableEq, Repr

/-- Verdict assembly from the accepted detections: per-type counts, detected
flags `count > 0`, severity from total count and mean confidence, and the
location list sorted by confidence descending and truncated to 20. -/
def mkDamageVerdict (locs : List DamageLocation) : DamageVerdict :=
  { scratchesCount := countType .scratch locs
    scratchesDetected := decide (countType .scratch locs > 0)
    dentsCount := countType .dent locs
    dentsDetected := decide (countType .dent locs > 0)
    rustCount := countType .rust locs
    rustDetected := decide (countType .rust locs > 0)
    severity := computeSeverity
      (countType .scratch locs + countType .dent locs + countType .rust locs)
      (averageConfidence locs)
    locations := (sortByConfidenceDesc locs).take 20 }

/-- The count field of the verdict keyed by damage type. -/
def DamageVerdict.typeCount (v : DamageVerdict) : DamageType → ℕ
  | .scratch => v.scratchesCount
  | .dent => v.dentsCount
  | .rust => v.rustCount

/-- The detected flag of the verdict keyed by damage type. -/
def DamageVerdict.typeDetected (v : DamageVerdict) : DamageType → Bool
  | .scratch => v.scratchesDetected
  | .dent => v.dentsDetected
  | .rust => v.rustDetected

/-! ### Paths (utils/path_validator.py and api/process.py) -/

/-- Split a character list on the slash separator, dropping empty
components; models the component view of a POSIX path string. -/
def splitComps : List Char → List Char → List String
  | [], acc => if acc.isEmpty then [] else [(acc.reverse).asString]
  | c :: rest, acc =>
      if c = '/' then
        (if acc.isEmpty then [] else [(acc.reverse).asString]) ++ splitComps rest []
      else
        splitComps rest (c :: acc)

/-- Components of a path string. -/
def pathComps (s : String) : List String := splitComps s.toList []

/-- Whether a path string is absolute (leading slash). -/
def isAbsolute (s : String) : Bool :=
  match s.toList with
  | '/' :: _ => true
  | _ => false

/-- Lexical normalization of a component sequence: `..` pops one component
(a no-op at the root), `.` is dropped. -/
def normalizeComps (start comps : List String) : List String :=
  comps.foldl
    (fun acc c =>
      if c = ".." then acc.dropLast
      else if c = "." then acc
      else acc ++ [c])
    start

/-- `Path(file_path).resolve()`: the path's components resolved against the
working directory (ignored when the path is absolute) and normalized. -/
def resolvePath (cwd : List String) (s : String) : List String :=
  normalizeComps (if isAbsolute s then [] else cwd) (pathComps s)

/-- `os.path.relpath(abs_path, base)`: strip the common prefix and climb out
of what remains of the base with `..` components. -/
def relPathComps : List String → List String → List String
  | t :: ts, b :: bs =>
      if t = b then relPathComps ts bs
      else List.replicate (b :: bs).length ".." ++ (t :: ts)
  | ts, bs => List.replicate bs.length ".." ++ ts

/-- `convert_to_relative_path` (process.py lines 36–39): relative to the
uploads root, forward-slash separated. -/
def convert_to_relative_path (uploadsRoot : List String) (p : String) : List String :=
  relPathComps (pathComps p) uploadsRoot

/-- The `PathValidator` state: the resolved allow-list of base directories,
together with the working directory relative paths resolve against. -/
structure PathValidator where
  cwd : List String
  allowedBasePaths : List (List String)

/-- `is_safe_path` over an explicit resolver that may fail, mirroring the
`try/except (ValueError, OSError)` around `Path(file_path).resolve()`
(path_validator.py lines 56–76): the empty string is rejected, a failing
resolution is mapped to `False`, otherwise the resolved path must have some
allowed base as a component prefix (`Path.relative_to` succeeding in
`_is_subpath`). -/
def isSafePathWith (resolve : String → Option (List String))
    (allowed : List (List String)) (filePath : String) : Bool :=
  if filePath = "" then false
  else
    match resolve filePath with
    | some resolved => allowed.any (fun base => base.isPrefixOf resolved)
    | none => false

/-- `is_safe_path` with the concrete lexical resolver. -/
def PathValidator.is_safe_path (v : PathValidator) (filePath : String) : Bool :=
  isSafePathWith (fun s => some (resolvePath v.cwd s)) v.allowedBasePaths filePath

/-- `validate_or_raise` (lines 95–112): `ValueError` becomes the error
branch. -/
def PathValidator.validate_or_raise (v : PathValidator) (filePath ctx : String) :
    Except String (List String) :=
  if v.is_safe_path filePath then .ok (resolvePath v.cwd filePath)
  else .error ("Invalid " ++ ctx ++ " path: access denied")

/-! ### Pipeline error policy (api/process.py) -/

/-- An `HTTPException(status_code, detail)`. -/
structure HTTPErr where
  statusCode : ℕ
  detail : String
deriving DecidableEq, Repr

/-- The body of `POST /process`. -/
structure ProcessRequest where
  videoPath : String
  inspectionId : String
  odometerImagePath : Option String
deriving DecidableEq, Repr

/-- The later, existence-dependent part of `_validate_input_files`
(lines 437–452): missing or inaccessible video is a 400, a missing odometer
image is downgraded to absent.  `fileExists` and `isFile` stand for
`os.path.exists` / `os.path.isfile`. -/
def existenceChecks (fileExists isFile : String → Bool)
    (req : ProcessRequest) : Except HTTPErr ProcessRequest :=
  if ¬ fileExists req.videoPath then
    .error ⟨400, "Video file not found: " ++ req.videoPath⟩
  else if ¬ isFile req.videoPath then
    .error ⟨400, "Video file is not accessible: " ++ req.videoPath⟩
  else
    match req.odometerImagePath with
    | some o =>
        if fileExists o then .ok req
        else .ok { req with odometerImagePath := none }
    | none => .ok req

/-- `_validate_input_files` (lines 415–452): the path-containment checks run
first, each `ValueError` re-raised as a 400 `HTTPException`; only then are
the existence checks consulted. -/
def validate_input_files (v : PathValidator) (fileExists isFile : String → Bool)
    (req : ProcessRequest) : Except HTTPErr ProcessRequest :=
  if ¬ v.is_safe_path req.videoPath then
    .error ⟨400, "Invalid video path: access denied"⟩
  else
    match req.odometerImagePath with
    | some o =>
        if ¬ v.is_safe_path o then
          .error ⟨400, "Invalid odometer image path: access denied"⟩
        else existenceChecks fileExists isFile req
    | none => existenceChecks fileExists isFile req

/-- A video as the frame extractor sees it: whether
`cv2.VideoCapture(video_path).isOpened()` holds, and the frame paths the
extraction loop collects when it does (the loop's blur/duplicate filtering
over decoded frames is collaborator work; its output list is the model's
parameter). -/
structure Video where
  openable : Bool
  acceptedFrames : List String

/-- `_extract_frames_sync` (frame_extractor.py lines 116–203): an unopenable
video raises `ValueError` (lines 126–129) before any frame is collected;
otherwise the collected frame paths are returned. -/
def extractFramesSync (v : Video) : Except String (List String) :=
  if v.openable then .ok v.acceptedFrames
  else .error "Could not open video file"

/-- How the awaited extraction call in `extract_video_frames` ends: the
extractor completed (with a result or a raised error), or the 300 s
`asyncio.wait_for` bound expired. -/
inductive ExtractionRun where
  | completed (result : Except String (List String))
  | timedOut

/-- `extract_video_frames` (process.py lines 106–147): timeout maps to 408,
an extractor exception to 500, a successful extraction is converted to
relative paths and an empty list is terminated with a 400. -/
def extract_video_frames (uploadsRoot : List String) (run : ExtractionRun) :
    Except HTTPErr (List String) :=
  match run with
  | .timedOut =>
      .error ⟨408, "Frame extraction timed out. The video may be too long or corrupted."⟩
  | .completed (.error e) =>
      .error ⟨500, "Failed to extract frames from video: " ++ e⟩
  | .completed (.ok frames) =>
      let framesRelative := frames.map
        (fun f => String.intercalate "/" (convert_to_relative_path uploadsRoot f))
      if framesRelative.isEmpty then
        .error ⟨400, "Failed to extract frames from video"⟩
      else .ok framesRelative

/-! ### Odometer degraded fallback (process.py lines 150–182) -/

/-- The odometer stage payload. -/
structure OdometerData where
  value : Option ℤ
  confidence : ℚ
  speedometerImagePath : Option String
deriving DecidableEq, Repr

/-- How the awaited `odometer_reader.read` call ends: a result within the
60 s bound, `asyncio.TimeoutError`, or any other exception. -/
inductive OdometerReadOutcome where
  | success (d : OdometerData)
  | timedOut
  | raised

/-- `read_odometer_from_image` (lines 150–182): timeout and failure both
fall back to `{value: None, confidence: 0.0, speedometer_image_path:
odometer_image_path}`, then the path field is converted to its
uploads-relative form (falling back to the original image path when the
field is absent). -/
def read_odometer_from_image (uploadsRoot : List String)
    (outcome : OdometerReadOutcome) (odometerImagePath : String) : OdometerData :=
  let odometerData :=
    match outcome with
    | .success d => d
    | .timedOut =>
        { value := none, confidence := 0
          speedometerImagePath := some odometerImagePath }
    | .raised =>
        { value := none, confidence := 0
          speedometerImagePath := some odometerImagePath }
  match odometerData.speedometerImagePath with
  | some p =>
      { odometerData with
        speedometerImagePath := some (String.intercalate "/" (convert_to_relative_path uploadsRoot p)) }
  | none =>
      { odometerData with
        speedometerImagePath := some (String.intercalate "/" (convert_to_relative_path uploadsRoot odometerImagePath)) }

/-! ### Helper lemmas -/

theorem mem_insertByConfidence {a b : DamageLocation} {l : List DamageLocation} :
    a ∈ insertByConfidence b l ↔ a = b ∨ a ∈ l := by
  induction l with
  | nil => simp [insertByConfidence]
  | cons c rest ih =>
      unfold insertByConfidence
      split_ifs with h
      · simp [List.mem_cons]
      · simp only [List.mem_cons, ih]
        tauto

theorem mem_sortByConfidenceDesc {a : DamageLocation} {l : List DamageLocation} :
    a ∈ sortByConfidenceDesc l ↔ a ∈ l := by
  induction l with
  | nil => simp [sortByConfidenceDesc]
  | cons b rest ih =>
      simp [sortByConfidenceDesc, mem_insertByConfidence, ih, List.mem_cons]

/-- A sample accepted scratch detection, used to exhibit count/truncation
divergence. -/
def sampleScratchLoc : DamageLocation :=
  { type := .scratch, framePath := "frame_0000.jpg", snapshot := none
    confidence := 1/2, bbox := (0, 0, 10, 10) }

theorem countType_scratch_replicate (n : ℕ) :
    countType .scratch (List.replicate n sampleScratchLoc) = n := by
  induction n with
  | zero => rfl
  | succ n ih =>
      simp only [List.replicate_succ, countType, List.filter_cons] at *
      simp [sampleScratchLoc, ih]

/-! ### Claim theorems -/

/-- C3: for every damage-engine run, with total the sum of the three
per-type counts and mean the average confidence of retained detections, the
returned severity follows exactly the spec's tiers: low if total = 0; else
high if total > 10 or (total > 5 and mean > 0.6); else medium if total > 3
or mean > 0.5; else low. -/
theorem severity_tiers_match_spec (locs : List DamageLocation) (total : ℕ) (mean : ℚ) :
    (mkDamageVerdict locs).severity
      = severitySpec
          (countType .scratch locs + countType .dent locs + countType .rust locs)
          (averageConfidence locs)
    ∧ computeSeverity total mean = severitySpec total mean :=
  ⟨rfl, rfl⟩

/-- C4: with severity ordered low < medium < high, the severity computed
from (total damage count, mean confidence) is monotonic non-decreasing in
the total count for every fixed mean confidence. -/
theorem severity_monotone_in_total (mean : ℚ) (t1 t2 : ℕ) (h : t1 ≤ t2) :
    (computeSeverity t1 mean).rank ≤ (computeSeverity t2 mean).rank := by
  simp only [computeSeverity]
  by_cases hA1 : t1 = 0
  · rw [if_pos hA1]
    exact Nat.zero_le _
  · by_cases hB1 : t1 > 10 ∨ (t1 > 5 ∧ mean > 6/10)
    · have hA2 : ¬ t2 = 0 := by omega
      have hB2 : t2 > 10 ∨ (t2 > 5 ∧ mean > 6/10) := by
        rcases hB1 with h' | ⟨h', hm⟩
        · exact Or.inl (by omega)
        · exact Or.inr ⟨by omega, hm⟩
      rw [if_neg hA1, if_pos hB1, if_neg hA2, if_pos hB2]
    · by_cases hC1 : t1 > 3 ∨ mean > 5/10
      · have hA2 : ¬ t2 = 0 := by omega
        have hC2 : t2 > 3 ∨ mean > 5/10 := by
          rcases hC1 with h' | hm
          · exact Or.inl (by omega)
          · exact Or.inr hm
        rw [if_neg hA1, if_neg hB1, if_pos hC1, if_neg hA2]
        by_cases hB2 : t2 > 10 ∨ (t2 > 5 ∧ mean > 6/10)
        · rw [if_pos hB2]
          simp [Severity.rank]
        · rw [if_neg hB2, if_pos hC2]
      · rw [if_neg hA1, if_neg hB1, if_neg hC1]
        exact Nat.zero_le _

/-- C4 witness: concrete instance of the monotonicity theorem. -/
theorem severity_monotone_in_total_witness :
    (computeSeverity 2 (1/2)).rank ≤ (computeSeverity 7 (1/2)).rank :=
  severity_monotone_in_total (1/2) 2 7 (by norm_num)

/-- C7: a detection is discarded as a duplicate exactly when some previously
accepted detection of the same damage type has its centre within the
type-specific pixel radius (50 scratch, 80 rust, 60 dent) on both axes and
lies within 3 frames; recording an accepted detection touches only its own
type's list, so detections of different types, farther centres, or larger
frame gaps are never discarded. -/
theorem dedup_discard_characterization (regions : DamageType → List RegionMark)
    (t : DamageType) (cand : RegionMark) :
    (dedupRadius .scratch = 50 ∧ dedupRadius .rust = 80 ∧ dedupRadius .dent = 60)
    ∧ (isDuplicateDetection regions t cand = true ↔
        ∃ prev ∈ regions t,
          |prev.x - cand.x| < dedupRadius t ∧ |prev.y - cand.y| < dedupRadius t
            ∧ |prev.frame - cand.frame| < 3)
    ∧ (∀ u, recordDetection regions t cand u
        = if u = t then regions t ++ [cand] else regions u) := by
  refine ⟨⟨rfl, rfl, rfl⟩, ?_, fun u => rfl⟩
  simp [isDuplicateDetection, isNearbyDuplicate, List.any_eq_true,
    Bool.and_eq_true, decide_eq_true_eq, and_assoc]

/-- C9: in every verdict, each type's detected flag is true exactly when its
count is positive, each count equals the number of accepted detections of
that type, and there is a run whose per-type count exceeds the entries of
that type left in the sorted, 20-truncated locations list. -/
theorem verdict_counts_detected_consistent :
    (∀ locs t, ((mkDamageVerdict locs).typeDetected t = true
        ↔ 0 < (mkDamageVerdict locs).typeCount t)
      ∧ (mkDamageVerdict locs).typeCount t = countType t locs)
    ∧ (∃ locs t, countType t (mkDamageVerdict locs).locations
        < (mkDamageVerdict locs).typeCount t) := by
  constructor
  · intro locs t
    cases t <;>
      simp [mkDamageVerdict, DamageVerdict.typeDetected, DamageVerdict.typeCount]
  · refine ⟨List.replicate 25 sampleScratchLoc, .scratch, ?_⟩
    have h1 : (mkDamageVerdict (List.replicate 25 sampleScratchLoc)).typeCount .scratch = 25 :=
      countType_scratch_replicate 25
    have h2 : countType .scratch (mkDamageVerdict (List.replicate 25 sampleScratchLoc)).locations ≤ 20 := by
      calc countType .scratch (mkDamageVerdict (List.replicate 25 sampleScratchLoc)).locations
          ≤ (mkDamageVerdict (List.replicate 25 sampleScratchLoc)).locations.length :=
            List.length_filter_le _ _
        _ ≤ 20 := by
            simp only [mkDamageVerdict, List.length_take]
            exact min_le_left _ _
    omega

/-- C5: every retained detection's confidence — hence every
`DamageLocation.confidence` in the returned verdict, whose locations list
only draws from the accepted detections — lies in [0, 1]: at least the 0.3
floor and at most the type-specific cap (0.95 scratch, 0.9 rust, 0.7 dent),
even though the dent pass's shadow-contrast term can be negative. -/
theorem damage_confidence_bounds (area aspect contrast edgeDensity sat val circ shadow : ℚ) :
    (∀ conf, scratchDetect area aspect contrast edgeDensity = some conf →
      3/10 ≤ conf ∧ conf ≤ 95/100)
    ∧ (∀ conf, rustDetect area sat val = some conf → 3/10 ≤ conf ∧ conf ≤ 9/10)
    ∧ (∀ conf, dentDetect area circ shadow = some conf → 3/10 ≤ conf ∧ conf ≤ 7/10)
    ∧ (∀ locs loc, loc ∈ (mkDamageVerdict locs).locations → loc ∈ locs) := by
  refine ⟨?_, ?_, ?_, ?_⟩
  · intro conf h
    simp only [scratchDetect] at h
    split_ifs at h with h1 h2 h3 <;> try simp at h
    subst h
    refine ⟨?_, min_le_left _ _⟩
    have := le_of_not_lt h3
    simpa [MIN_CONFIDENCE_THRESHOLD] using this
  · intro conf h
    simp only [rustDetect] at h
    split_ifs at h with h1 h2 <;> try simp at h
    subst h
    constructor
    · have := le_of_not_lt h2
      simpa [MIN_CONFIDENCE_THRESHOLD] using this
    · have hA : rustColorConfidence sat val ≤ 9/10 := min_le_left _ _
      have hB : rustAreaConfidence area ≤ 9/10 := min_le_left _ _
      unfold rustConfidence
      linarith
  · intro conf h
    simp only [dentDetect] at h
    split_ifs at h with h1 h2 h3 <;> try simp at h
    subst h
    constructor
    · have := le_of_not_lt h3
      simpa [MIN_CONFIDENCE_THRESHOLD] using this
    · have hA : min (8/10 : ℚ) (area / 50000) ≤ 8/10 := min_le_left _ _
      have hB : min (7/10 : ℚ) circ ≤ 7/10 := min_le_left _ _
      have hC : min (6/10 : ℚ) (shadow * 2) ≤ 6/10 := min_le_left _ _
      have eA := mul_le_mul_of_nonneg_right hA (by norm_num : (0:ℚ) ≤ 3/10)
      have eB := mul_le_mul_of_nonneg_right hB (by norm_num : (0:ℚ) ≤ 3/10)
      have eC := mul_le_mul_of_nonneg_right hC (by norm_num : (0:ℚ) ≤ 4/10)
      unfold dentConfidence
      linarith
  · intro locs loc h
    have h' : loc ∈ sortByConfidenceDesc locs := List.take_subset _ _ h
    exact mem_sortByConfidenceDesc.mp h'

/-- C5 witness: each pass's bound theorem applied at a concrete retained
detection. -/
theorem damage_confidence_bounds_witness :
    (scratchDetect 1000 2 (1/2) (1/2) = some (7/10)
      ∧ (3:ℚ)/10 ≤ 7/10 ∧ (7:ℚ)/10 ≤ 95/100)
    ∧ (rustDetect 10000 255 255 = some (1/2)
      ∧ (3:ℚ)/10 ≤ 1/2 ∧ (1:ℚ)/2 ≤ 9/10)
    ∧ (dentDetect 10000 (1/2) (1/2) = some (45/100)
      ∧ (3:ℚ)/10 ≤ 45/100 ∧ (45:ℚ)/100 ≤ 7/10) := by
  have hs : scratchDetect 1000 2 (1/2) (1/2) = some (7/10) := by
    norm_num [scratchDetect, scratchConfidence, MIN_CONFIDENCE_THRESHOLD, min_def]
  have hr : rustDetect 10000 255 255 = some (1/2) := by
    norm_num [rustDetect, rustConfidence, rustColorConfidence, rustAreaConfidence,
      MIN_CONFIDENCE_THRESHOLD, min_def]
  have hd : dentDetect 10000 (1/2) (1/2) = some (45/100) := by
    norm_num [dentDetect, dentConfidence, MIN_CONFIDENCE_THRESHOLD, min_def]
  exact ⟨⟨hs, (damage_confidence_bounds 1000 2 (1/2) (1/2) 255 255 (1/2) (1/2)).1 _ hs⟩,
    ⟨hr, (damage_confidence_bounds 10000 2 (1/2) (1/2) 255 255 (1/2) (1/2)).2.1 _ hr⟩,
    ⟨hd, (damage_confidence_bounds 10000 2 (1/2) (1/2) 255 255 (1/2) (1/2)).2.2.1 _ hd⟩⟩

/-- C8: the scratch pass retains a contour only if its area lies in
[500, 20000] px² and its aspect is at least 1.5, and every retained scratch
confidence lies in [0.4, 0.95] when the contrast and edge-density terms are
nonnegative, never below the 0.3 floor. -/
theorem scratch_retention_characterization (area aspect contrast edgeDensity : ℚ)
    (hc : 0 ≤ contrast) (he : 0 ≤ edgeDensity) :
    ∀ conf, scratchDetect area aspect contrast edgeDensity = some conf →
      (500 ≤ area ∧ area ≤ 20000) ∧ 3/2 ≤ aspect
        ∧ 4/10 ≤ conf ∧ conf ≤ 95/100 ∧ MIN_CONFIDENCE_THRESHOLD ≤ conf := by
  intro conf h
  simp only [scratchDetect] at h
  split_ifs at h with h1 h2 h3 <;> try simp at h
  subst h
  obtain ⟨ha1, ha2⟩ := h1
  refine ⟨⟨le_of_lt ha1, le_of_lt ha2⟩, le_of_not_lt h2, ?_,
    min_le_left _ _, le_of_not_lt h3⟩
  unfold scratchConfidence
  refine le_min (by norm_num) ?_
  have e1 : 0 ≤ contrast * (4/10 : ℚ) := mul_nonneg hc (by norm_num)
  have e2 : 0 ≤ edgeDensity * (2/10 : ℚ) := mul_nonneg he (by norm_num)
  linarith

/-- C8 witness: the retention theorem applied at a concrete retained
contour. -/
theorem scratch_retention_characterization_witness :
    scratchDetect 600 3 1 0 = some (8/10)
    ∧ ((500 ≤ (600:ℚ) ∧ (600:ℚ) ≤ 20000) ∧ (3:ℚ)/2 ≤ 3
        ∧ (4:ℚ)/10 ≤ 8/10 ∧ (8:ℚ)/10 ≤ 95/100 ∧ MIN_CONFIDENCE_THRESHOLD ≤ 8/10) := by
  have hs : scratchDetect 600 3 1 0 = some (8/10) := by
    norm_num [scratchDetect, scratchConfidence, MIN_CONFIDENCE_THRESHOLD, min_def]
  exact ⟨hs, scratch_retention_characterization 600 3 1 0 (by norm_num) (by norm_num) _ hs⟩

/-- C1 counterexample: for an unreadable video the extractor raises the
video-open error and the pipeline terminates with a 500, so the request
neither yields a non-empty frame list nor terminates with a 400 as the
claim states. -/
theorem pipeline_corrupt_video_counterexample :
    extract_video_frames [] (.completed (extractFramesSync ⟨false, []⟩))
      = .error ⟨500, "Failed to extract frames from video: Could not open video file"⟩
    ∧ ¬ ((∃ frames, extract_video_frames [] (.completed (extractFramesSync ⟨false, []⟩))
            = .ok frames ∧ frames ≠ [])
        ∨ (∃ d, extract_video_frames [] (.completed (extractFramesSync ⟨false, []⟩))
            = .error ⟨400, d⟩)) := by
  have h : extract_video_frames [] (.completed (extractFramesSync ⟨false, []⟩))
      = .error ⟨500, "Failed to extract frames from video: Could not open video file"⟩ := rfl
  refine ⟨h, ?_⟩
  rintro (⟨frames, hf, _⟩ | ⟨d, hd⟩)
  · rw [h] at hf
    exact absurd hf (by simp)
  · rw [h] at hd
    simp only [Except.error.injEq, HTTPErr.mk.injEq] at hd
    omega

/-- C1 (amended): for every accepted video request the pipeline either
produces a non-empty frame list or terminates with an HTTP error — 400 when
extraction accepts zero frames, 408 on the extraction timeout, and 500 when
the extractor raises; an unreadable video raises the video-open error from
the extractor (surfacing as the 500), never an empty success payload. -/
theorem extract_video_frames_error_policy (uploadsRoot : List String) (run : ExtractionRun) :
    (∀ frames, extract_video_frames uploadsRoot run = .ok frames → frames ≠ [])
    ∧ (∀ raw, run = .completed (.ok raw) → raw = [] →
        extract_video_frames uploadsRoot run
          = .error ⟨400, "Failed to extract frames from video"⟩)
    ∧ (run = .timedOut →
        extract_video_frames uploadsRoot run
          = .error ⟨408, "Frame extraction timed out. The video may be too long or corrupted."⟩)
    ∧ (∀ v, v.openable = false → run = .completed (extractFramesSync v) →
        extract_video_frames uploadsRoot run
          = .error ⟨500, "Failed to extract frames from video: Could not open video file"⟩) := by
  refine ⟨?_, ?_, ?_, ?_⟩
  · intro frames hf
    cases run with
    | timedOut => simp [extract_video_frames] at hf
    | completed res =>
        cases res with
        | error e => simp [extract_video_frames] at hf
        | ok raw =>
            simp only [extract_video_frames] at hf
            split_ifs at hf with hemp
            simp only [Except.ok.injEq] at hf
            subst hf
            simpa [List.isEmpty_iff] using hemp
  · intro raw hrun hraw
    subst hrun
    subst hraw
    rfl
  · intro hrun
    subst hrun
    rfl
  · intro v hv hrun
    subst hrun
    simp [extract_video_frames, extractFramesSync, hv]

/-- C1 witness: the amended error policy at the zero-frames and timeout
outcomes. -/
theorem extract_video_frames_error_policy_witness :
    extract_video_frames [] (.completed (.ok []))
      = .error ⟨400, "Failed to extract frames from video"⟩
    ∧ extract_video_frames [] .timedOut
      = .error ⟨408, "Frame extraction timed out. The video may be too long or corrupted."⟩ :=
  ⟨(extract_video_frames_error_policy [] (.completed (.ok []))).2.1 [] rfl rfl,
   (extract_video_frames_error_policy [] .timedOut).2.2.1 rfl⟩

/-- C2: when the odometer read over a user-supplied image times out or
fails, the stage returns the degraded result — null value, zero confidence,
and the original image path (in its uploads-relative form, per the
pipeline's path normalization) — instead of letting the error escape; the
embedding is a total function into `OdometerData`. -/
theorem odometer_degraded_on_timeout_or_failure (uploadsRoot : List String)
    (outcome : OdometerReadOutcome) (odometerImagePath : String)
    (h : outcome = .timedOut ∨ outcome = .raised) :
    read_odometer_from_image uploadsRoot outcome odometerImagePath
      = { value := none, confidence := 0
          speedometerImagePath := some (String.intercalate "/"
            (convert_to_relative_path uploadsRoot odometerImagePath)) } := by
  rcases h with h | h <;> subst h <;> rfl

/-- C2 witness: the degraded fallback at a concrete timed-out read. -/
theorem odometer_degraded_on_timeout_or_failure_witness :
    read_odometer_from_image ["backend", "uploads"] .timedOut
        "/backend/uploads/odometer_images/img.jpg"
      = { value := none, confidence := 0
          speedometerImagePath := some "odometer_images/img.jpg" } := by
  rw [odometer_degraded_on_timeout_or_failure ["backend", "uploads"] .timedOut
    "/backend/uploads/odometer_images/img.jpg" (Or.inl rfl)]
  rfl

/-- C6: a request file path that is not contained in the allow-list of base
directories is rejected with a 400 validation error, for every
file-existence oracle — so the rejection is independent of, and decided
before, any file-existence check. -/
theorem unsafe_path_rejected_before_existence (v : PathValidator)
    (fileExists isFile : String → Bool) (req : ProcessRequest) :
    (v.is_safe_path req.videoPath = false →
      validate_input_files v fileExists isFile req
        = .error ⟨400, "Invalid video path: access denied"⟩)
    ∧ (∀ o, req.odometerImagePath = some o → v.is_safe_path req.videoPath = true →
        v.is_safe_path o = false →
        validate_input_files v fileExists isFile req
          = .error ⟨400, "Invalid odometer image path: access denied"⟩) := by
  constructor
  · intro h
    simp [validate_input_files, h]
  · intro o ho hv h
    simp [validate_input_files, ho, hv, h]

/-- C6 witness: the traversal path "../../etc/passwd" is rejected with a 400
even under an oracle that reports every file as existing. -/
theorem unsafe_path_rejected_before_existence_witness :
    validate_input_files
        ⟨["app", "ml-service"], [["app", "backend", "uploads"]]⟩
        (fun _ => true) (fun _ => true)
        ⟨"../../etc/passwd", "insp-001", none⟩
      = .error ⟨400, "Invalid video path: access denied"⟩ :=
  (unsafe_path_rejected_before_existence
    ⟨["app", "ml-service"], [["app", "backend", "uploads"]]⟩
    (fun _ => true) (fun _ => true)
    ⟨"../../etc/passwd", "insp-001", none⟩).1 (by decide)

/-- C10: `is_safe_path` is a total boolean function: the empty string is
rejected, and an input whose resolution fails (the `ValueError`/`OSError`
branch) is mapped to `False` rather than propagating; the concrete validator
is the instance whose resolver always succeeds. -/
theorem is_safe_path_total_behavior (resolve : String → Option (List String))
    (allowed : List (List String)) (filePath : String) (cwd : List String) :
    isSafePathWith resolve allowed "" = false
    ∧ (resolve filePath = none → isSafePathWith resolve allowed filePath = false)
    ∧ PathValidator.is_safe_path ⟨cwd, allowed⟩ filePath
        = isSafePathWith (fun s => some (resolvePath cwd s)) allowed filePath := by
  refine ⟨rfl, ?_, rfl⟩
  intro h
  unfold isSafePathWith
  split_ifs with h1
  · rfl
  · simp [h]

/-- C10 witness: a failing resolver maps a non-empty path to `False`. -/
theorem is_safe_path_total_behavior_witness :
    isSafePathWith (fun _ => none) [] "x" = false :=
  (is_safe_path_total_behavior (fun _ => none) [] "x" []).2.1 rfl

end VehicleIntelligence
